import Mathlib

/-!
Shallow embedding of the request-admission layer of the image-builder API:
the `ValidationOptions` context plumbing from
`vendor/github.com/getkin/kin-openapi/openapi3/validation_options.go`, and the
`v1` server code (request binder, HTTP error handler, identity resolution,
entitlement check and distro access gate).

Go maps become association lists, Go `error` values become an explicit
`GoError` type, context values become an `Option` field, and the mutating
option closures become pure functions on the options record.
-/

namespace ImageBuilder

/-! ## ValidationOptions (kin-openapi validation_options.go) -/

/-- ValidationOptions provides configuration for validating OpenAPI documents.
All six boolean fields default to `false`, exactly as Go zero-initialises the
struct: format validation disabled, pattern validation enabled (its Disabled
flag false), defaults validation enabled, examples validation enabled. -/
structure ValidationOptions where
  examplesValidationAsReq : Bool := false
  examplesValidationAsRes : Bool := false
  examplesValidationDisabled : Bool := false
  schemaDefaultsValidationDisabled : Bool := false
  schemaFormatValidationEnabled : Bool := false
  schemaPatternValidationDisabled : Bool := false
deriving Repr, DecidableEq

/-- A ValidationOption mutates the options record; in Go it is
`func(options *ValidationOptions)`, here a pure update function. -/
def ValidationOption : Type := ValidationOptions → ValidationOptions

/-- EnableSchemaFormatValidation sets schemaFormatValidationEnabled. -/
def EnableSchemaFormatValidation : ValidationOption :=
  fun options => { options with schemaFormatValidationEnabled := true }

/-- DisableSchemaFormatValidation clears schemaFormatValidationEnabled. -/
def DisableSchemaFormatValidation : ValidationOption :=
  fun options => { options with schemaFormatValidationEnabled := false }

/-- EnableSchemaPatternValidation clears schemaPatternValidationDisabled. -/
def EnableSchemaPatternValidation : ValidationOption :=
  fun options => { options with schemaPatternValidationDisabled := false }

/-- DisableSchemaPatternValidation sets schemaPatternValidationDisabled. -/
def DisableSchemaPatternValidation : ValidationOption :=
  fun options => { options with schemaPatternValidationDisabled := true }

/-- EnableSchemaDefaultsValidation clears schemaDefaultsValidationDisabled. -/
def EnableSchemaDefaultsValidation : ValidationOption :=
  fun options => { options with schemaDefaultsValidationDisabled := false }

/-- DisableSchemaDefaultsValidation sets schemaDefaultsValidationDisabled. -/
def DisableSchemaDefaultsValidation : ValidationOption :=
  fun options => { options with schemaDefaultsValidationDisabled := true }

/-- EnableExamplesValidation clears examplesValidationDisabled. -/
def EnableExamplesValidation : ValidationOption :=
  fun options => { options with examplesValidationDisabled := false }

/-- DisableExamplesValidation sets examplesValidationDisabled. -/
def DisableExamplesValidation : ValidationOption :=
  fun options => { options with examplesValidationDisabled := true }

/-- The request-processing context, restricted to the only context key this
code reads or writes: the attached validation-options bundle
(`validationOptionsKey`). `none` models a context with no attached bundle. -/
structure Context where
  validationOptions : Option ValidationOptions := none

/-- WithValidationOptions: given zero or more option mutators, returns the
context unchanged when the list is empty; otherwise builds a FRESH
zero-valued options record, applies the mutators in order, and attaches the
result to the context (replacing any bundle already attached). -/
def WithValidationOptions (ctx : Context) (opts : List ValidationOption) : Context :=
  if opts.length = 0 then
    ctx
  else
    { ctx with validationOptions := some (opts.foldl (fun options opt => opt options) {}) }

/-- getValidationOptions returns the attached bundle, or a zero-valued
(all-default) bundle when none is attached; it is total and never fails. -/
def getValidationOptions (ctx : Context) : ValidationOptions :=
  match ctx.validationOptions with
  | some options => options
  | none => {}

/-! ## Errors, responses and the binder (v1 server code) -/

/-- A Go `error` value as this code inspects it: either an `*echo.HTTPError`
(status code, message, optional wrapped Internal error) or any other error
carrying only a message. The HTTPErrorHandler type-asserts `he.Internal` to
`*echo.HTTPError`, so Internal is itself a `GoError`. -/
inductive GoError : Type where
  | httpError (code : Nat) (message : String) (internal : Option GoError) : GoError
  | other (message : String) : GoError
deriving Repr

/-- HTTPError is the generated API error shape: Title and Detail strings. -/
structure HTTPError where
  title : String
  detail : String
deriving Repr, DecidableEq

/-- HTTPErrorList wraps a list of HTTPError; the sole external error body. -/
structure HTTPErrorList where
  errors : List HTTPError
deriving Repr, DecidableEq

/-- What the error handler writes to the response: either a bare status code
with no body (`c.NoContent`) or a JSON-encoded HTTPErrorList (`c.JSON`). -/
inductive ResponseWrite : Type where
  | noContent (code : Nat) : ResponseWrite
  | jsonErrorList (code : Nat) (body : HTTPErrorList) : ResponseWrite
deriving Repr, DecidableEq

/-- The status/message resolution at the top of Server.HTTPErrorHandler:
a non-HTTPError becomes 500 with `http.StatusText(500)`; an HTTPError whose
Internal type-asserts to an HTTPError is replaced by that inner error. -/
def resolveHTTPError (err : GoError) : Nat × String :=
  match err with
  | .httpError code message internal =>
    match internal with
    | some (.httpError c m _) => (c, m)
    | _ => (code, message)
  | .other _ => (500, "Internal Server Error")

/-- Server.HTTPErrorHandler: resolves the error to a status code and message,
builds a one-element HTTPError list `{Title: strconv.Itoa(code), Detail:
message}`, and — only if the response is not yet committed — writes NoContent
for HEAD requests and the JSON HTTPErrorList otherwise. The 5xx logging and
compose-endpoint metric increment do not affect the response and are elided. -/
def HTTPErrorHandler (err : GoError) (method : String) (committed : Bool) :
    Option ResponseWrite :=
  let he := resolveHTTPError err
  let errs : List HTTPError := [{ title := toString he.1, detail := he.2 }]
  if committed then
    none
  else if method = "HEAD" then
    some (.noContent he.1)
  else
    some (.jsonErrorList he.1 { errors := errs })

/-- The parts of an HTTP request the binder consults:
`request.Header["Content-Type"]` (a list of raw header values, empty when the
header is absent) and the raw body. -/
structure Request where
  contentTypeHeader : List String
  body : String

/-- binder.Bind: rejects the request with 415 unless the Content-Type header
has exactly one value equal to `application/json`; only then decodes the body
(the JSON decoder is a parameter; the claims never depend on decoded values),
turning a decode failure into a 400 error whose message prefixes the decoder
error with `cannot parse request body: `. -/
def Bind (decode : String → Except String Unit) (req : Request) :
    Except GoError Unit :=
  if req.contentTypeHeader.length ≠ 1 ∨ req.contentTypeHeader.headD "" ≠ "application/json" then
    .error (.httpError 415 "request must be json-encoded" none)
  else
    match decode req.body with
    | .error e => .error (.httpError 400 ("cannot parse request body: " ++ e) none)
    | .ok _ => .ok ()

/-! ## Identity, entitlement and the distro access gate -/

/-- identity.Internal: the nested object carrying the organization id. -/
structure Internal where
  orgID : String
deriving Repr, DecidableEq

/-- identity.Identity: account number plus the Internal object. -/
structure IdentityData where
  accountNumber : String
  internal : Internal
deriving Repr, DecidableEq

/-- An entry of the entitlements map: `{isEntitled: bool}`. -/
structure Entitlement where
  isEntitled : Bool
deriving Repr, DecidableEq

/-- identity.XRHID: the verified identity header payload. The Go
`map[string]Entitlement` becomes an association list keyed by feature name. -/
structure XRHID where
  identity : IdentityData
  entitlements : List (String × Entitlement)
deriving Repr, DecidableEq

/-- getIdentityHeader: `identity.Get` on the request context either yields the
deserialized header or reports a 500 `Identity Header missing in request
handler` error. The request context is modelled by the `Option XRHID` it may
carry. -/
def getIdentityHeader (idCtx : Option XRHID) : Except GoError XRHID :=
  match idCtx with
  | some idHeader => .ok idHeader
  | none => .error (.httpError 500 "Identity Header missing in request handler" none)

/-- Log levels of the echo logger calls this code makes (it calls `.Error`);
`warn` exists so that the level actually used can be compared against it. -/
inductive LogLevel : Type where
  | error : LogLevel
  | warn : LogLevel
deriving Repr, DecidableEq

/-- A server-side log line: level plus message. -/
structure LogEntry where
  level : LogLevel
  message : String
deriving Repr, DecidableEq

/-- Server.isEntitled, together with the log lines it emits: a context whose
identity header is missing yields false (no log); a present `rhel`
entitlements entry is authoritative; an absent entry falls back to a
non-empty account number, logging `RHEL entitlement not present in identity
header` at ERROR level via `ctx.Logger().Error`. -/
def isEntitled (idCtx : Option XRHID) : Bool × List LogEntry :=
  match getIdentityHeader idCtx with
  | .error _ => (false, [])
  | .ok idh =>
    match idh.entitlements.lookup "rhel" with
    | some entitled => (entitled.isEntitled, [])
    | none =>
      (idh.identity.accountNumber != "",
       [{ level := .error, message := "RHEL entitlement not present in identity header" }])

/-- distribution.Distribution: the part getDistro reads is the name. -/
structure Distribution where
  name : String
deriving Repr, DecidableEq

/-- distribution.DistributionFile with the two observations getDistro makes:
the embedded Distribution and the IsRestricted() flag. -/
structure DistributionFile where
  distribution : Distribution
  restricted : Bool
deriving Repr, DecidableEq

/-- Outcome of `DistroRegistry.Get`: a distribution, the sentinel
`distribution.DistributionNotFound` error, or any other error. -/
inductive RegistryResult : Type where
  | found (d : DistributionFile) : RegistryResult
  | notFound : RegistryResult
  | otherError (e : String) : RegistryResult
deriving Repr

/-- Modelled from the spec: the message of the sentinel error value
`distribution.DistributionNotFound` (the distribution package is not under
src/); getDistro only compares against the sentinel, never reads its text. -/
def distributionNotFoundMessage : String := "distribution not found"

/-- The two Server dependencies getDistro consults, as abstract behaviours:
`allDistros b name` is `s.allDistros.Available(b).Get(name)` (the registry
scoped to entitlement tier `b`), and `allowList org name` is
`s.allowList.IsAllowed(org, name)` with its Go `(bool, error)` result. -/
structure Server where
  allDistros : Bool → String → RegistryResult
  allowList : String → String → Except String Bool

/-- Server.distroRegistry: the distro registry scoped to the caller, i.e.
`s.allDistros.Available(s.isEntitled(ctx))`. -/
def distroRegistry (s : Server) (idCtx : Option XRHID) : String → RegistryResult :=
  s.allDistros (isEntitled idCtx).1

/-- Server.getDistro: looks the requested name up in the entitlement-scoped
registry (DistributionNotFound → 400, other lookup error propagated as-is),
resolves the identity header, and for a restricted distribution consults the
allow-list for (orgID, distribution name): lookup error → 500, negative
answer → 403 with a message naming the distribution, positive answer (and
any unrestricted distribution) → the distribution itself. -/
def getDistro (s : Server) (idCtx : Option XRHID) (distro : String) :
    Except GoError DistributionFile :=
  match distroRegistry s idCtx distro with
  | .notFound => .error (.httpError 400 distributionNotFoundMessage none)
  | .otherError e => .error (.other e)
  | .found d =>
    match getIdentityHeader idCtx with
    | .error e => .error e
    | .ok idHeader =>
      if d.restricted then
        match s.allowList idHeader.identity.internal.orgID d.distribution.name with
        | .error e => .error (.httpError 500 e none)
        | .ok allowOk =>
          if allowOk then
            .ok d
          else
            .error (.httpError 403
              ("This account\x27s organization is not authorized to build "
                ++ d.distribution.name ++ " images") none)
      else
        .ok d

/-! ## Shared sample inputs and helper lemmas -/

/-- A fully populated identity header used to instantiate theorems. -/
def sampleIdh : XRHID :=
  { identity := { accountNumber := "000001", internal := { orgID := "123" } },
    entitlements := [("rhel", { isEntitled := true })] }

/-- An identity header with no entitlements entries at all (the degraded
legacy payload) but a non-empty account number. -/
def fallbackIdh : XRHID :=
  { identity := { accountNumber := "000001", internal := { orgID := "123" } },
    entitlements := [] }

/-- A restricted distribution used to instantiate theorems. -/
def restrictedDistro : DistributionFile :=
  { distribution := { name := "rhel-9" }, restricted := true }

/-- An unrestricted distribution used to instantiate theorems. -/
def unrestrictedDistro : DistributionFile :=
  { distribution := { name := "fedora-39" }, restricted := false }

/-- The binder condition: a Content-Type header list other than exactly
`["application/json"]` satisfies the Go rejection test
`len(contentType) != 1 || contentType[0] != "application/json"`. -/
theorem contentType_cond_of_ne (ct : List String) (h : ct ≠ ["application/json"]) :
    ct.length ≠ 1 ∨ ct.headD "" ≠ "application/json" := by
  match ct with
  | [] => exact Or.inl (by simp)
  | [x] => exact Or.inr (by simpa using h)
  | x :: y :: rest => exact Or.inl (by simp)

/-- Any request whose Content-Type header is not exactly one value equal to
`application/json` is rejected by the binder with the 415 error, whatever the
decoder and body are. -/
theorem bind_rejects_of_ne (decode : String → Except String Unit) (ct : List String)
    (body : String) (h : ct ≠ ["application/json"]) :
    Bind decode { contentTypeHeader := ct, body := body }
      = .error (.httpError 415 "request must be json-encoded" none) := by
  unfold Bind
  rw [if_pos]
  exact contentType_cond_of_ne ct h

/-! ## Theorems for the claims -/

/-- C8: on a context with no attached validation bundle, getValidationOptions
returns (and, being a total function, never fails to return) the all-default
bundle: format validation off, pattern validation on (its Disabled flag
false), defaults validation on, examples validation on. -/
theorem getValidationOptions_no_bundle_default :
    getValidationOptions { validationOptions := none } = {}
  ∧ (getValidationOptions { validationOptions := none }).schemaFormatValidationEnabled = false
  ∧ (getValidationOptions { validationOptions := none }).schemaPatternValidationDisabled = false
  ∧ (getValidationOptions { validationOptions := none }).schemaDefaultsValidationDisabled = false
  ∧ (getValidationOptions { validationOptions := none }).examplesValidationDisabled = false :=
  ⟨rfl, rfl, rfl, rfl, rfl⟩

/-- C4: a processing context carrying no identity record makes
getIdentityHeader fail with status 500, which is a server error and not in
the 4xx client-error range. -/
theorem getIdentityHeader_missing_is_server_error :
    getIdentityHeader none
      = .error (.httpError 500 "Identity Header missing in request handler" none)
  ∧ ¬ (400 ≤ 500 ∧ 500 < 500) :=
  ⟨rfl, by decide⟩

/-- C3 counterexample: composing WithValidationOptions twice with mutators
touching disjoint flags (first enable format validation, then disable
examples validation) does NOT yield the union of both calls\x27 effects: the
second call rebuilds the bundle from scratch, so the retrieved bundle has
format validation back at its default (off) instead of the union bundle. -/
theorem withValidationOptions_twice_union_counterexample :
    getValidationOptions
        (WithValidationOptions
          (WithValidationOptions { validationOptions := none } [EnableSchemaFormatValidation])
          [DisableExamplesValidation])
      = { examplesValidationDisabled := true }
  ∧ getValidationOptions
        (WithValidationOptions
          (WithValidationOptions { validationOptions := none } [EnableSchemaFormatValidation])
          [DisableExamplesValidation])
      ≠ { schemaFormatValidationEnabled := true, examplesValidationDisabled := true } := by
  constructor
  · rfl
  · decide

/-- C3 amended: a second WithValidationOptions call with a non-empty mutator
list replaces the attached bundle — the retrieved bundle is exactly the
second call\x27s mutators folded over a fresh default bundle, the first
call\x27s effects being discarded; within a single call, mutators touching
the same flag are last-writer-wins, so the orders [A, B] and [B, A] can
yield different bundles. -/
theorem withValidationOptions_replace_and_last_writer_wins (ctx : Context)
    (opts1 opts2 : List ValidationOption) (h : opts2 ≠ []) :
    getValidationOptions (WithValidationOptions (WithValidationOptions ctx opts1) opts2)
      = opts2.foldl (fun options opt => opt options) {}
  ∧ getValidationOptions (WithValidationOptions ctx
        [EnableSchemaFormatValidation, DisableSchemaFormatValidation])
      ≠ getValidationOptions (WithValidationOptions ctx
        [DisableSchemaFormatValidation, EnableSchemaFormatValidation]) := by
  constructor
  · have hlen : opts2.length ≠ 0 := by simpa using h
    simp [WithValidationOptions, hlen, getValidationOptions]
  · simp only [WithValidationOptions, List.length_cons, List.length_nil]
    norm_num
    simp only [getValidationOptions]
    decide

/-- C3 amended witness: instantiating at the empty context with the two
disjoint single-mutator calls of the counterexample. -/
theorem withValidationOptions_replace_witness :
    getValidationOptions
        (WithValidationOptions
          (WithValidationOptions { validationOptions := none } [EnableSchemaFormatValidation])
          [DisableExamplesValidation])
      = [DisableExamplesValidation].foldl (fun options opt => opt options) {}
  ∧ getValidationOptions (WithValidationOptions { validationOptions := none }
        [EnableSchemaFormatValidation, DisableSchemaFormatValidation])
      ≠ getValidationOptions (WithValidationOptions { validationOptions := none }
        [DisableSchemaFormatValidation, EnableSchemaFormatValidation]) :=
  withValidationOptions_replace_and_last_writer_wins { validationOptions := none }
    [EnableSchemaFormatValidation] [DisableExamplesValidation] (List.cons_ne_nil _ _)

/-- C2 counterexample: on an identity with no `rhel` entitlements entry and a
non-empty account number, the fallback fires (isEntitled returns true) and
the fallback IS logged, but at ERROR level — no warning-level line is
emitted, contradicting the claim that the fallback is logged as a warning. -/
theorem isEntitled_fallback_logged_as_error_counterexample :
    (isEntitled (some fallbackIdh)).1 = true
  ∧ (isEntitled (some fallbackIdh)).2
      = [{ level := .error, message := "RHEL entitlement not present in identity header" }]
  ∧ (isEntitled (some fallbackIdh)).2.all
      (fun entry => entry.level != LogLevel.warn) = true := by
  refine ⟨rfl, rfl, rfl⟩

/-- C2 amended: a present `rhel` entitlements entry is authoritative (its
isEntitled flag is returned, with no log); an absent entry falls back to
treating a non-empty account number as entitled, and this fallback is logged
server-side at ERROR level (not warning). -/
theorem isEntitled_rhel_entry_and_fallback (idh : XRHID) :
    (∀ entry, idh.entitlements.lookup "rhel" = some entry →
      isEntitled (some idh) = (entry.isEntitled, []))
  ∧ (idh.entitlements.lookup "rhel" = none →
      isEntitled (some idh) =
        (idh.identity.accountNumber != "",
         [{ level := .error,
            message := "RHEL entitlement not present in identity header" }]))
  ∧ (idh.entitlements.lookup "rhel" = none →
      ((isEntitled (some idh)).1 = true ↔ idh.identity.accountNumber ≠ "")) := by
  refine ⟨?_, ?_, ?_⟩
  · intro entry hentry
    simp [isEntitled, getIdentityHeader, hentry]
  · intro hnone
    simp [isEntitled, getIdentityHeader, hnone]
  · intro hnone
    simp [isEntitled, getIdentityHeader, hnone]

/-- C2 amended witness: the sample identity carries a `rhel` entry with
isEntitled true, which is returned verbatim with no log line. -/
theorem isEntitled_rhel_entry_witness :
    isEntitled (some sampleIdh) = (true, []) :=
  (isEntitled_rhel_entry_and_fallback sampleIdh).1 { isEntitled := true } rfl

/-- C5: a Content-Type other than application/json makes Bind fail with 415
for EVERY decoder (so before any JSON decoding can have been attempted), and
the externally observed response for that error on a non-HEAD request with an
uncommitted response is the JSON HTTPErrorList with exactly one entry. -/
theorem bind_non_json_content_type (decode : String → Except String Unit)
    (ct : List String) (body : String) (m : String)
    (hct : ct ≠ ["application/json"]) (hm : m ≠ "HEAD") :
    Bind decode { contentTypeHeader := ct, body := body }
      = .error (.httpError 415 "request must be json-encoded" none)
  ∧ HTTPErrorHandler (.httpError 415 "request must be json-encoded" none) m false
      = some (.jsonErrorList 415
          { errors := [{ title := "415", detail := "request must be json-encoded" }] })
  ∧ ∀ body2, HTTPErrorHandler (.httpError 415 "request must be json-encoded" none) m false
      = some (.jsonErrorList 415 { errors := body2 }) → body2.length = 1 := by
  refine ⟨bind_rejects_of_ne decode ct body hct, ?_, ?_⟩
  · simp only [HTTPErrorHandler, resolveHTTPError]
    rw [if_neg (by simp), if_neg hm]
    rfl
  · intro body2 hbody2
    simp only [HTTPErrorHandler, resolveHTTPError] at hbody2
    rw [if_neg (by simp), if_neg hm] at hbody2
    simp only [Option.some.injEq, ResponseWrite.jsonErrorList.injEq] at hbody2
    have h3 := congrArg HTTPErrorList.errors hbody2.2
    simp only at h3
    rw [← h3]
    rfl

/-- C5 witness: a text/plain POST request with any decoder. -/
theorem bind_non_json_content_type_witness :
    Bind (fun _ => .ok ()) { contentTypeHeader := ["text/plain"], body := "x" }
      = .error (.httpError 415 "request must be json-encoded" none)
  ∧ HTTPErrorHandler (.httpError 415 "request must be json-encoded" none) "POST" false
      = some (.jsonErrorList 415
          { errors := [{ title := "415", detail := "request must be json-encoded" }] })
  ∧ ∀ body2, HTTPErrorHandler (.httpError 415 "request must be json-encoded" none) "POST" false
      = some (.jsonErrorList 415 { errors := body2 }) → body2.length = 1 :=
  bind_non_json_content_type (fun _ => .ok ()) ["text/plain"] "x" "POST"
    (by decide) (by decide)

/-- C6: with Content-Type application/json and a body the JSON decoder
rejects, Bind fails with 400 and a detail message mentioning the parse
failure (prefix `cannot parse request body: `); 400 is a client error, not a
server error. -/
theorem bind_malformed_json_body (decode : String → Except String Unit)
    (body e : String) (hd : decode body = .error e) :
    Bind decode { contentTypeHeader := ["application/json"], body := body }
      = .error (.httpError 400 ("cannot parse request body: " ++ e) none)
  ∧ (400 < 500 ∧ ¬ 500 ≤ 400) := by
  refine ⟨?_, by decide⟩
  unfold Bind
  rw [if_neg (by simp)]
  simp [hd]

/-- C6 witness: a decoder failing with `unexpected EOF` on body `{`. -/
theorem bind_malformed_json_body_witness :
    Bind (fun _ => .error "unexpected EOF")
        { contentTypeHeader := ["application/json"], body := "\x7b" }
      = .error (.httpError 400 ("cannot parse request body: " ++ "unexpected EOF") none)
  ∧ (400 < 500 ∧ ¬ 500 ≤ 400) :=
  bind_malformed_json_body (fun _ => .error "unexpected EOF") "\x7b" "unexpected EOF" rfl

/-- C9: with an uncommitted response, the error handler answers a failing
HEAD request with the resolved status code and no body (never a JSON
payload: `noContent` is a different constructor from `jsonErrorList`), and
answers a failing non-HEAD request with the JSON-encoded HTTPErrorList
holding the single entry whose title is the numeric status rendered as a
string and whose detail is the resolved message. -/
theorem httpErrorHandler_head_empty_nonhead_json (err : GoError) (m : String)
    (hm : m ≠ "HEAD") :
    HTTPErrorHandler err "HEAD" false = some (.noContent (resolveHTTPError err).1)
  ∧ (∀ code body, (ResponseWrite.noContent (resolveHTTPError err).1)
      ≠ ResponseWrite.jsonErrorList code body)
  ∧ HTTPErrorHandler err m false
      = some (.jsonErrorList (resolveHTTPError err).1
          { errors := [{ title := toString (resolveHTTPError err).1,
                         detail := (resolveHTTPError err).2 }] }) := by
  refine ⟨?_, ?_, ?_⟩
  · simp [HTTPErrorHandler]
  · intro code body
    simp
  · simp only [HTTPErrorHandler]
    rw [if_neg (by simp), if_neg hm]

/-- C9 witness: a wrapped 404 error on a GET request. -/
theorem httpErrorHandler_head_empty_nonhead_json_witness :
    HTTPErrorHandler (.httpError 500 "wrapped" (some (.httpError 404 "Not Found" none)))
        "HEAD" false
      = some (.noContent (resolveHTTPError
          (.httpError 500 "wrapped" (some (.httpError 404 "Not Found" none)))).1)
  ∧ (∀ code body, (ResponseWrite.noContent (resolveHTTPError
        (.httpError 500 "wrapped" (some (.httpError 404 "Not Found" none)))).1)
      ≠ ResponseWrite.jsonErrorList code body)
  ∧ HTTPErrorHandler (.httpError 500 "wrapped" (some (.httpError 404 "Not Found" none)))
        "GET" false
      = some (.jsonErrorList (resolveHTTPError
            (.httpError 500 "wrapped" (some (.httpError 404 "Not Found" none)))).1
          { errors := [{ title := toString (resolveHTTPError
                           (.httpError 500 "wrapped"
                             (some (.httpError 404 "Not Found" none)))).1,
                         detail := (resolveHTTPError
                           (.httpError 500 "wrapped"
                             (some (.httpError 404 "Not Found" none)))).2 }] }) :=
  httpErrorHandler_head_empty_nonhead_json
    (.httpError 500 "wrapped" (some (.httpError 404 "Not Found" none))) "GET" (by decide)

/-- C10: Bind rejects with 415 exactly when the Content-Type header is
anything other than a single value equal to `application/json` — so a header
with a media-type parameter, multiple values, or no value at all is rejected,
while a request carrying exactly `application/json` never produces the 415
error whatever the decoder does with the body. -/
theorem bind_content_type_exactness (decode : String → Except String Unit)
    (body : String) (ct : List String) (hct : ct ≠ ["application/json"]) :
    Bind decode { contentTypeHeader := ct, body := body }
      = .error (.httpError 415 "request must be json-encoded" none)
  ∧ ∀ (d : String → Except String Unit) (b : String),
      Bind d { contentTypeHeader := ["application/json"], body := b }
        ≠ .error (.httpError 415 "request must be json-encoded" none) := by
  refine ⟨bind_rejects_of_ne decode ct body hct, ?_⟩
  intro d b
  unfold Bind
  rw [if_neg (by simp)]
  cases hdb : d b with
  | error e => simp
  | ok u => simp

/-- C10 witness: a media-type parameter (`application/json; charset=utf-8`)
is rejected even though its media type is JSON. -/
theorem bind_content_type_exactness_witness :
    Bind (fun _ => .ok ())
        { contentTypeHeader := ["application/json; charset=utf-8"], body := "\x7b\x7d" }
      = .error (.httpError 415 "request must be json-encoded" none)
  ∧ ∀ (d : String → Except String Unit) (b : String),
      Bind d { contentTypeHeader := ["application/json"], body := b }
        ≠ .error (.httpError 415 "request must be json-encoded" none) :=
  bind_content_type_exactness (fun _ => .ok ()) "\x7b\x7d"
    ["application/json; charset=utf-8"] (by decide)

/-- C1: for a request whose identity header resolves, getDistro follows the
distro access gate case analysis — an unknown name in the registry scoped to
the caller\x27s entitlement tier yields 400; a resolved unrestricted
distribution is returned successfully; a resolved restricted distribution is
returned successfully iff the allow-list answers positively for (orgID,
distribution name), a failed allow-list lookup yields 500, and a negative
allow-list answer yields 403 with a message naming the distribution. -/
theorem getDistro_access_gate_cases (s : Server) (idh : XRHID) (distro : String) :
    (s.allDistros (isEntitled (some idh)).1 distro = .notFound →
      getDistro s (some idh) distro
        = .error (.httpError 400 distributionNotFoundMessage none))
  ∧ (∀ d, s.allDistros (isEntitled (some idh)).1 distro = .found d →
      d.restricted = false →
      getDistro s (some idh) distro = .ok d)
  ∧ (∀ d, s.allDistros (isEntitled (some idh)).1 distro = .found d →
      d.restricted = true →
      ((getDistro s (some idh) distro = .ok d
          ↔ s.allowList idh.identity.internal.orgID d.distribution.name = .ok true)
        ∧ (∀ e, s.allowList idh.identity.internal.orgID d.distribution.name = .error e →
            getDistro s (some idh) distro = .error (.httpError 500 e none))
        ∧ (s.allowList idh.identity.internal.orgID d.distribution.name = .ok false →
            getDistro s (some idh) distro
              = .error (.httpError 403
                  ("This account\x27s organization is not authorized to build "
                    ++ d.distribution.name ++ " images") none)))) := by
  refine ⟨?_, ?_, ?_⟩
  · intro hnf
    simp [getDistro, distroRegistry, hnf]
  · intro d hfound hunres
    simp [getDistro, distroRegistry, hfound, getIdentityHeader, hunres]
  · intro d hfound hres
    refine ⟨?_, ?_, ?_⟩
    · constructor
      · intro hok
        simp only [getDistro, distroRegistry, hfound, getIdentityHeader, hres,
          if_true] at hok
        cases hal : s.allowList idh.identity.internal.orgID d.distribution.name with
        | error e => rw [hal] at hok; exact absurd hok (by simp)
        | ok allowOk =>
          rw [hal] at hok
          cases allowOk with
          | true => rfl
          | false => exact absurd hok (by simp)
      · intro hal
        simp [getDistro, distroRegistry, hfound, getIdentityHeader, hres, hal]
    · intro e hal
      simp [getDistro, distroRegistry, hfound, getIdentityHeader, hres, hal]
    · intro hal
      simp [getDistro, distroRegistry, hfound, getIdentityHeader, hres, hal]

/-- C1 witness: a registry always resolving to the restricted sample
distribution and an allow-list always answering positively let the sample
identity build rhel-9 images. -/
theorem getDistro_access_gate_cases_witness :
    getDistro { allDistros := fun _ _ => .found restrictedDistro,
                allowList := fun _ _ => .ok true }
        (some sampleIdh) "rhel-9"
      = .ok restrictedDistro :=
  ((getDistro_access_gate_cases
      { allDistros := fun _ _ => .found restrictedDistro,
        allowList := fun _ _ => .ok true }
      sampleIdh "rhel-9").2.2 restrictedDistro rfl rfl).1.mpr rfl

/-- C7: a requested name resolving in the entitlement-scoped registry to an
unrestricted distribution is returned successfully for any resolved identity
— even one with no entitlements — and the result does not depend on the
allow-list at all (it is never consulted). -/
theorem getDistro_unrestricted_allowed (reg : Bool → String → RegistryResult)
    (al al2 : String → String → Except String Bool) (idh : XRHID)
    (distro : String) (d : DistributionFile)
    (hfound : reg (isEntitled (some idh)).1 distro = .found d)
    (hunres : d.restricted = false) :
    getDistro { allDistros := reg, allowList := al } (some idh) distro = .ok d
  ∧ getDistro { allDistros := reg, allowList := al } (some idh) distro
      = getDistro { allDistros := reg, allowList := al2 } (some idh) distro := by
  constructor
  · simp [getDistro, distroRegistry, hfound, getIdentityHeader, hunres]
  · simp [getDistro, distroRegistry, hfound, getIdentityHeader, hunres]

/-- C7 witness: the fallback identity has an empty entitlements map, the
registry resolves fedora-39 to the unrestricted sample distribution, and two
allow-lists that disagree (one even erroring) leave the Allowed outcome
unchanged. -/
theorem getDistro_unrestricted_allowed_witness :
    getDistro { allDistros := fun _ _ => .found unrestrictedDistro,
                allowList := fun _ _ => .ok false }
        (some fallbackIdh) "fedora-39"
      = .ok unrestrictedDistro
  ∧ getDistro { allDistros := fun _ _ => .found unrestrictedDistro,
                allowList := fun _ _ => .ok false }
        (some fallbackIdh) "fedora-39"
      = getDistro { allDistros := fun _ _ => .found unrestrictedDistro,
                    allowList := fun _ _ => .error "allow-list io failure" }
          (some fallbackIdh) "fedora-39" :=
  getDistro_unrestricted_allowed (fun _ _ => .found unrestrictedDistro)
    (fun _ _ => .ok false) (fun _ _ => .error "allow-list io failure")
    fallbackIdh "fedora-39" unrestrictedDistro rfl rfl

end ImageBuilder
